import Mathlib

/-!
Shallow embedding of the `nvml_mig::MIGManager` concurrent partition/telemetry
manager (source: `nvml_mig_optimal.cpp`, header `nvml_mig_optimal.h`).

The NVML driver is modelled as an oracle (`Driver`): a record of pure functions
giving the outcome of each driver entry point.  `Option` results model calls
that can fail with a non-success `nvmlReturn_t`; `none` is any failure code.
Every embedded manager operation is instrumented: it returns its result paired
with the list of driver calls it performed, so "performs no driver call" is
`trace = []`.

Machine integers (`unsigned int`, `unsigned long long`, handles) are modelled
as `Nat`; no claim depends on overflow.  `std::map` iteration order (key-sorted)
is abstracted as insertion order of an association list with upsert; no claim
depends on iteration order.  Fields of C++ structs that the source leaves
default-initialized (indeterminate for scalars) are given explicitly where a
claim depends on them (`collectDeviceMetrics` takes the indeterminate initial
contents as a parameter) and defaulted to `0` where no claim inspects them.
-/

/-- The `nvmlReturn_t` success code. -/
def NVML_SUCCESS : Nat := 0

/-- Constant `NVML_ENABLE_MIG` (the enabled MIG mode value). -/
def NVML_ENABLE_MIG : Nat := 1

/-- Constant `NVML_DISABLE_MIG`. -/
def NVML_DISABLE_MIG : Nat := 0

/-- Result of `nvmlGpuInstanceGetInfo`: the fields the source reads. -/
structure GpuInstanceInfo where
  id : Nat
  profileId : Nat
  deriving Repr, DecidableEq

/-- Result of `nvmlDeviceGetMemoryInfo`. -/
structure MemoryInfo where
  used : Nat
  free : Nat
  total : Nat
  deriving Repr, DecidableEq

/-- Result of `nvmlDeviceGetGpuInstanceProfileInfo`: the fields the source reads. -/
structure ProfileInfo where
  memorySizeMB : Nat
  multiprocessorCount : Nat
  maxComputeInstances : Nat
  deriving Repr, DecidableEq

/-- One entry of `nvmlDeviceGetComputeRunningProcesses`. -/
structure ProcessEntry where
  pid : Nat
  usedGpuMemory : Nat
  deriving Repr, DecidableEq

/-- Struct `MIGDeviceInfo` from `nvml_mig_optimal.h` (the partition descriptor). -/
structure MIGDeviceInfo where
  deviceHandle : Nat
  parentDeviceIndex : Nat
  instanceId : Nat
  profileId : Nat
  uuid : String
  memorySize : Nat
  multiprocessorCount : Nat
  maxComputeInstances : Nat
  currentComputeInstances : Nat
  computeInstanceIds : List Nat
  deriving Repr, DecidableEq

/-- Struct `MIGMetrics` from `nvml_mig_optimal.h` (the telemetry snapshot).
`timestamp` abstracts `std::chrono::system_clock::time_point` as `Nat`;
`processUtilization` abstracts `std::map<std::string, unsigned int>`. -/
structure MIGMetrics where
  timestamp : Nat
  gpuUtilization : Nat
  memoryUtilization : Nat
  memoryUsed : Nat
  memoryFree : Nat
  memoryTotal : Nat
  powerUsage : Nat
  temperature : Nat
  processUtilization : List (String × Nat)
  deriving Repr, DecidableEq

/-- Struct `MIGProfile` from `nvml_mig_optimal.h`. -/
structure MIGProfile where
  profileId : Nat
  memorySizeMB : Nat
  multiprocessorCount : Nat
  maxComputeInstances : Nat
  name : String
  deriving Repr, DecidableEq

/-- A label for one driver entry-point invocation (the instrumentation alphabet). -/
inductive DriverCall where
  | getCount : DriverCall
  | getHandle (index : Nat) : DriverCall
  | getMigMode (handle : Nat) : DriverCall
  | setMigMode (handle mode : Nat) : DriverCall
  | getGpuInstances (handle : Nat) : DriverCall
  | giGetInfo (gi : Nat) : DriverCall
  | giGetComputeInstances (gi : Nat) : DriverCall
  | ciGetInfo (ci : Nat) : DriverCall
  | ciGetDeviceHandle (ci : Nat) : DriverCall
  | getUUID (handle : Nat) : DriverCall
  | getMemoryInfo (handle : Nat) : DriverCall
  | getProfileInfo (handle profileId : Nat) : DriverCall
  | getName (handle : Nat) : DriverCall
  | getUtilization (handle : Nat) : DriverCall
  | getPowerUsage (handle : Nat) : DriverCall
  | getTemperature (handle : Nat) : DriverCall
  | getRunningProcesses (handle : Nat) : DriverCall
  | getProcessName (pid : Nat) : DriverCall
  deriving Repr, DecidableEq

/-- Oracle for the NVML driver: the outcome of each entry point the manager
uses.  Handles, GPU-instance handles and compute-instance handles are `Nat`.
`none` models any non-`NVML_SUCCESS` return.
`computeInstanceGetDeviceHandle` is total because the source ignores that
call's status (line 134) and uses whatever ends up in the out-parameter.
`systemGetProcessName` is total because the source ignores its status and the
name buffer is zero-initialized (empty string on failure). -/
structure Driver where
  deviceGetCount : Option Nat
  deviceGetHandleByIndex : Nat → Option Nat
  deviceGetMigMode : Nat → Option (Nat × Nat)
  deviceSetMigMode : Nat → Nat → Nat
  deviceGetGpuInstances : Nat → Option (List Nat)
  gpuInstanceGetInfo : Nat → Option GpuInstanceInfo
  gpuInstanceGetComputeInstances : Nat → Option (List Nat)
  computeInstanceGetInfo : Nat → Option Nat
  computeInstanceGetDeviceHandle : Nat → Nat
  deviceGetUUID : Nat → Option String
  deviceGetMemoryInfo : Nat → Option MemoryInfo
  deviceGetGpuInstanceProfileInfo : Nat → Nat → Option ProfileInfo
  deviceGetName : Nat → Option String
  deviceGetUtilizationRates : Nat → Option (Nat × Nat)
  deviceGetPowerUsage : Nat → Option Nat
  deviceGetTemperature : Nat → Option Nat
  deviceGetComputeRunningProcesses : Nat → Option (List ProcessEntry)
  systemGetProcessName : Nat → String

/-- Stand-in for the NVML library's `nvmlErrorString` table (external to the
repository); claims depend only on it being some fixed code-to-text function. -/
def nvmlErrorString (code : Nat) : String := "NVML_ERROR_" ++ toString code

/-- The registry mapping uuid to descriptor (`std::map<std::string, MIGDeviceInfo>`),
as an association list with unique keys maintained by upsert. -/
abbrev RegMap := List (String × MIGDeviceInfo)

/-- Operation `m[k] = v` on a `std::map` modelled as an association list: assign in place
if the key exists, append otherwise. -/
def mapUpsert {β : Type} (m : List (String × β)) (k : String) (v : β) : List (String × β) :=
  if m.any (fun p => p.1 == k) then m.map (fun p => if p.1 == k then (k, v) else p)
  else m ++ [(k, v)]

/-- Mutable manager state shared between threads: the device inventory
(`devices`), the partition registry (`migDevices`) and the metrics cache
(`latestMetrics`), the latter two guarded by `metricsMutex` in the source. -/
structure MgrState where
  devices : List Nat
  migDevices : RegMap
  latestMetrics : List (String × MIGMetrics)
  deriving Repr, DecidableEq

/-- Embeds `MIGManager::isMIGModeEnabled` (lines 273-282): bounds-check, then
`nvmlDeviceGetMigMode`; true only on success with current mode enabled. -/
def isMIGModeEnabled (drv : Driver) (devices : List Nat) (deviceIndex : Nat) :
    Bool × List DriverCall :=
  if devices.length ≤ deviceIndex then (false, [])
  else
    let h := devices.getD deviceIndex 0
    match drv.deviceGetMigMode h with
    | some mm => (mm.1 == NVML_ENABLE_MIG, [.getMigMode h])
    | none => (false, [.getMigMode h])

/-- One iteration of the compute-instance loop of `refreshMIGDevices`
(lines 120-159): on `nvmlComputeInstanceGetInfo` success push the id, and at
`j = 0` resolve the partition's device handle, uuid, memory size and profile
limits.  The accumulator is the `migInfo` local paired with the call trace. -/
def ciStep (drv : Driver) (parentHandle profileId : Nat)
    (acc : MIGDeviceInfo × List DriverCall) (jci : Nat × Nat) :
    MIGDeviceInfo × List DriverCall :=
  match drv.computeInstanceGetInfo jci.2 with
  | none => (acc.1, acc.2 ++ [.ciGetInfo jci.2])
  | some ciId =>
    let mi1 := { acc.1 with computeInstanceIds := acc.1.computeInstanceIds ++ [ciId] }
    if jci.1 = 0 then
      let h := drv.computeInstanceGetDeviceHandle jci.2
      let mi2 := { mi1 with deviceHandle := h }
      let mi3 := match drv.deviceGetUUID h with
        | some u => { mi2 with uuid := u }
        | none => mi2
      let mi4 := match drv.deviceGetMemoryInfo h with
        | some m => { mi3 with memorySize := m.total }
        | none => mi3
      let mi5 := match drv.deviceGetGpuInstanceProfileInfo parentHandle profileId with
        | some p => { mi4 with maxComputeInstances := p.maxComputeInstances,
                               multiprocessorCount := p.multiprocessorCount }
        | none => mi4
      (mi5, acc.2 ++ [.ciGetInfo jci.2, .ciGetDeviceHandle jci.2, .getUUID h,
                      .getMemoryInfo h, .getProfileInfo parentHandle profileId])
    else (mi1, acc.2 ++ [.ciGetInfo jci.2])

/-- The per-GPU-instance body of `refreshMIGDevices` (lines 100-165): resolve
instance info and compute instances, fold `ciStep`, and yield a registry entry
only when the collected uuid is non-empty (line 162). -/
def processGI (drv : Driver) (parentHandle deviceIndex gi : Nat) :
    Option (String × MIGDeviceInfo) × List DriverCall :=
  match drv.gpuInstanceGetInfo gi with
  | none => (none, [.giGetInfo gi])
  | some info =>
    match drv.gpuInstanceGetComputeInstances gi with
    | none => (none, [.giGetInfo gi, .giGetComputeInstances gi])
    | some cis =>
      let mi0 : MIGDeviceInfo :=
        { deviceHandle := 0, parentDeviceIndex := deviceIndex, instanceId := info.id,
          profileId := info.profileId, uuid := "", memorySize := 0,
          multiprocessorCount := 0, maxComputeInstances := 0,
          currentComputeInstances := cis.length, computeInstanceIds := [] }
      let r := cis.enum.foldl (ciStep drv parentHandle info.profileId) (mi0, [])
      (if r.1.uuid = "" then none else some (r.1.uuid, r.1),
       [.giGetInfo gi, .giGetComputeInstances gi] ++ r.2)

/-- The per-device body of the `refreshMIGDevices` outer loop (lines 87-169):
skip devices without MIG mode, then enumerate GPU instances; an enumeration
failure contributes nothing for this device. -/
def deviceContribution (drv : Driver) (devices : List Nat) (deviceIndex : Nat) :
    List (String × MIGDeviceInfo) × List DriverCall :=
  let mig := isMIGModeEnabled drv devices deviceIndex
  if mig.1 = false then ([], mig.2)
  else
    let h := devices.getD deviceIndex 0
    match drv.deviceGetGpuInstances h with
    | none => ([], mig.2 ++ [.getGpuInstances h])
    | some gis =>
      let rs := gis.map (processGI drv h deviceIndex)
      (rs.filterMap (fun r => r.1), mig.2 ++ [.getGpuInstances h] ++ (rs.map (fun r => r.2)).flatten)

/-- The local `newDevices` map built by one pass of `refreshMIGDevices`
(lines 85-169): the uuid-keyed insertions of every device's contribution,
in device order. -/
def buildNewDevices (drv : Driver) (devices : List Nat) : RegMap × List DriverCall :=
  let rs := (List.range devices.length).map (deviceContribution drv devices)
  (((rs.map (fun r => r.1)).flatten).foldl (fun m kv => mapUpsert m kv.1 kv.2) [],
   (rs.map (fun r => r.2)).flatten)

/-- Embeds `MIGManager::refreshMIGDevices` (lines 84-176): build `newDevices` from
this pass's driver responses only, then replace the published registry in the
single `metricsMutex`-guarded swap (lines 172-175). -/
def refreshMIGDevices (drv : Driver) (st : MgrState) : MgrState × List DriverCall :=
  let b := buildNewDevices drv st.devices
  ({ st with migDevices := b.1 }, b.2)

/-- The registry maps observable by a concurrent reader (who must also hold
`metricsMutex`) at each atomic step of one `refreshMIGDevices` pass: the build
loop (one observation point per device iteration, plus entry) mutates only the
local `newDevices`, so the published map stays the previous one; the final
element is the state after the single lock-guarded swap. -/
def refreshObservableMaps (drv : Driver) (st : MgrState) : List RegMap :=
  List.replicate (st.devices.length + 1) st.migDevices ++
    [(refreshMIGDevices drv st).1.migDevices]

/-- Embeds `MIGManager::collectDeviceMetrics` (lines 391-442).  The C++ local
`MIGMetrics metrics;` is default-initialized: its scalar fields hold
indeterminate values, modelled by the explicit `init` argument; the
`processUtilization` map default-constructs empty and `timestamp` is always
overwritten with the current time (`now`).  Each failed sub-query leaves the
corresponding fields at their initial (indeterminate) values. -/
def collectDeviceMetrics (drv : Driver) (devices : List Nat) (now : Nat)
    (init : MIGMetrics) (device : MIGDeviceInfo) : MIGMetrics × List DriverCall :=
  let m0 := { init with timestamp := now, processUtilization := ([] : List (String × Nat)) }
  let m1 := match drv.deviceGetUtilizationRates device.deviceHandle with
    | some u => { m0 with gpuUtilization := u.1, memoryUtilization := u.2 }
    | none => m0
  let m2 := match drv.deviceGetMemoryInfo device.deviceHandle with
    | some mem => { m1 with memoryUsed := mem.used, memoryFree := mem.free,
                            memoryTotal := mem.total }
    | none => m1
  let parentHandle := devices.getD device.parentDeviceIndex 0
  let m3 := match drv.deviceGetPowerUsage parentHandle with
    | some p => { m2 with powerUsage := p }
    | none => m2
  let m4 := match drv.deviceGetTemperature parentHandle with
    | some t => { m3 with temperature := t }
    | none => m3
  match drv.deviceGetComputeRunningProcesses device.deviceHandle with
  | none =>
    (m4, [.getUtilization device.deviceHandle, .getMemoryInfo device.deviceHandle,
          .getPowerUsage parentHandle, .getTemperature parentHandle,
          .getRunningProcesses device.deviceHandle])
  | some procs =>
    let m5 := procs.foldl (fun acc p =>
      let name := drv.systemGetProcessName p.pid
      let processName := if name = "" then "pid_" ++ toString p.pid else name
      { acc with processUtilization :=
          mapUpsert acc.processUtilization processName (p.usedGpuMemory / (1024 * 1024)) }) m4
    (m5, [.getUtilization device.deviceHandle, .getMemoryInfo device.deviceHandle,
          .getPowerUsage parentHandle, .getTemperature parentHandle,
          .getRunningProcesses device.deviceHandle] ++
         procs.map (fun p => DriverCall.getProcessName p.pid))

/-- Embeds `MIGManager::initializeDevices` (lines 60-81) minus the trailing
`refreshMIGDevices()` call (line 80, modelled separately by
`refreshMIGDevices`): a failed count query throws (`Except.error`); per-index
handle failures are skipped with a warning and omitted.  Returns the inventory
and the list of warned indices. -/
def initializeDevices (drv : Driver) : Except String (List Nat × List Nat) :=
  match drv.deviceGetCount with
  | none => .error "디바이스 개수 조회 실패"
  | some n =>
    .ok ((List.range n).filterMap drv.deviceGetHandleByIndex,
         (List.range n).filter (fun i => (drv.deviceGetHandleByIndex i).isNone))

/-- A completion-callback invocation: (callback identity, success, message). -/
abbrev CallbackEvent := Nat × Bool × String

/-- Embeds `MIGManager::AsyncTask`: the queued closure plus the optional completion
callback (identified by a tag; `none` models a null `std::function`).  The
closure runs against the driver and the shared state; a thrown
`NVMLException`/`std::exception` is `Except.error` carrying `what()` (the
enqueued task bodies in this source throw before any state mutation). -/
structure AsyncTask where
  run : Driver → MgrState → Except String MgrState
  callback : Option Nat

/-- The body of one `workerLoop` iteration (lines 342-354): run the task,
then invoke the callback, if any, exactly once — `(true, "작업 성공")` on
normal return, `(false, e.what())` when the task threw. -/
def execTask (drv : Driver) (st : MgrState) (t : AsyncTask) : MgrState × List CallbackEvent :=
  match t.run drv st with
  | .ok st2 =>
    (st2, match t.callback with
          | some id => [(id, true, "작업 성공")]
          | none => [])
  | .error msg =>
    (st, match t.callback with
         | some id => [(id, false, msg)]
         | none => [])

/-- Embeds `MIGManager::workerLoop` (lines 320-356) on a queue snapshot.
`stopAfter` is the number of wait-iterations completed before the destructor's
`workerActive = false` store is observed: the loop checks the stop flag
*before* popping (line 331), so once it fires the remaining queue is returned
unexecuted (third component) with no callback invoked for it.  Returns the
final state, the callback invocations in order, and the unexecuted remainder. -/
def workerRun (drv : Driver) : MgrState → List AsyncTask → Nat →
    MgrState × List CallbackEvent × List AsyncTask
  | st, q, 0 => (st, [], q)
  | st, [], _ + 1 => (st, [], [])
  | st, t :: ts, k + 1 =>
    let r := execTask drv st t
    let rest := workerRun drv r.1 ts k
    (rest.1, r.2 ++ rest.2.1, rest.2.2)

/-- The task body enqueued by the async branch of `MIGManager::enableMIGMode`
(lines 189-195): `nvmlDeviceSetMigMode(.., NVML_ENABLE_MIG)`, throwing
`NVMLException(result, "MIG 모드 활성화 실패")` on failure, then
`refreshMIGDevices()`. -/
def mkEnableTaskRun (deviceIndex : Nat) : Driver → MgrState → Except String MgrState :=
  fun drv st =>
    let c := drv.deviceSetMigMode (st.devices.getD deviceIndex 0) NVML_ENABLE_MIG
    if c = NVML_SUCCESS then .ok (refreshMIGDevices drv st).1
    else .error ("MIG 모드 활성화 실패" ++ ": " ++ nvmlErrorString c)

/-- The task body enqueued by the async branch of `MIGManager::disableMIGMode`
(lines 236-242). -/
def mkDisableTaskRun (deviceIndex : Nat) : Driver → MgrState → Except String MgrState :=
  fun drv st =>
    let c := drv.deviceSetMigMode (st.devices.getD deviceIndex 0) NVML_DISABLE_MIG
    if c = NVML_SUCCESS then .ok (refreshMIGDevices drv st).1
    else .error ("MIG 모드 비활성화 실패" ++ ": " ++ nvmlErrorString c)

/-- Result of one facade mutating call: the boolean return, the state after
the synchronous part, callbacks invoked synchronously, tasks enqueued for the
worker, and the driver calls made synchronously. -/
structure CallOutcome where
  ret : Bool
  st : MgrState
  events : List CallbackEvent
  enqueued : List AsyncTask
  calls : List DriverCall

/-- Embeds `if (callback) callback(ok, msg)` for an optional callback tag. -/
def optEvent (cb : Option Nat) (ok : Bool) (msg : String) : List CallbackEvent :=
  match cb with
  | some id => [(id, ok, msg)]
  | none => []

/-- Embeds `MIGManager::enableMIGMode` (lines 179-223): invalid index fails fast with
callback `(false, "유효하지 않은 디바이스 인덱스")` and no driver call; async
enqueues the task and returns true; sync performs the driver call, refreshes on
success, and reports via callback. -/
def enableMIGMode (drv : Driver) (st : MgrState) (deviceIndex : Nat)
    (async : Bool) (cb : Option Nat) : CallOutcome :=
  if st.devices.length ≤ deviceIndex then
    { ret := false, st := st, events := optEvent cb false "유효하지 않은 디바이스 인덱스",
      enqueued := [], calls := [] }
  else if async then
    { ret := true, st := st, events := [],
      enqueued := [⟨mkEnableTaskRun deviceIndex, cb⟩], calls := [] }
  else
    let h := st.devices.getD deviceIndex 0
    let c := drv.deviceSetMigMode h NVML_ENABLE_MIG
    if c = NVML_SUCCESS then
      let r := refreshMIGDevices drv st
      { ret := true, st := r.1, events := optEvent cb true "MIG 모드 활성화 성공",
        enqueued := [], calls := .setMigMode h NVML_ENABLE_MIG :: r.2 }
    else
      { ret := false, st := st, events := optEvent cb false (nvmlErrorString c),
        enqueued := [], calls := [.setMigMode h NVML_ENABLE_MIG] }

/-- Embeds `MIGManager::disableMIGMode` (lines 226-270), mirror of `enableMIGMode`. -/
def disableMIGMode (drv : Driver) (st : MgrState) (deviceIndex : Nat)
    (async : Bool) (cb : Option Nat) : CallOutcome :=
  if st.devices.length ≤ deviceIndex then
    { ret := false, st := st, events := optEvent cb false "유효하지 않은 디바이스 인덱스",
      enqueued := [], calls := [] }
  else if async then
    { ret := true, st := st, events := [],
      enqueued := [⟨mkDisableTaskRun deviceIndex, cb⟩], calls := [] }
  else
    let h := st.devices.getD deviceIndex 0
    let c := drv.deviceSetMigMode h NVML_DISABLE_MIG
    if c = NVML_SUCCESS then
      let r := refreshMIGDevices drv st
      { ret := true, st := r.1, events := optEvent cb true "MIG 모드 비활성화 성공",
        enqueued := [], calls := .setMigMode h NVML_DISABLE_MIG :: r.2 }
    else
      { ret := false, st := st, events := optEvent cb false (nvmlErrorString c),
        enqueued := [], calls := [.setMigMode h NVML_DISABLE_MIG] }

/-- Embeds `MIGManager::getAllMIGDevices` (lines 466-482): performs a full
`refreshMIGDevices()` (driver enumeration) and then returns the registry's
descriptors under the lock.  Result: (descriptors, post-call state, driver
calls made). -/
def getAllMIGDevices (drv : Driver) (st : MgrState) :
    List MIGDeviceInfo × MgrState × List DriverCall :=
  let r := refreshMIGDevices drv st
  (r.1.migDevices.map (fun p => p.2), r.1, r.2)

/-- Embeds `MIGManager::getMIGDevices` (lines 485-506): bounds-check, then a full
`refreshMIGDevices()`, then the descriptors whose parent is `deviceIndex`. -/
def getMIGDevices (drv : Driver) (st : MgrState) (deviceIndex : Nat) :
    List MIGDeviceInfo × MgrState × List DriverCall :=
  if st.devices.length ≤ deviceIndex then ([], st, [])
  else
    let r := refreshMIGDevices drv st
    ((r.1.migDevices.filter (fun p => p.2.parentDeviceIndex = deviceIndex)).map (fun p => p.2),
     r.1, r.2)

/-- Embeds `MIGManager::findMIGDeviceByUUID` (lines 509-518): a pure lookup in the
published registry under the lock; no driver call. -/
def findMIGDeviceByUUID (st : MgrState) (uuid : String) :
    Option MIGDeviceInfo × List DriverCall :=
  (st.migDevices.lookup uuid, [])

/-- Embeds `MIGManager::getMIGDeviceMetrics` (lines 521-536): cached snapshot when
present; otherwise an on-demand `collectDeviceMetrics` against the registry's
descriptor; otherwise `std::nullopt`, with no driver call. -/
def getMIGDeviceMetrics (drv : Driver) (st : MgrState) (now : Nat)
    (init : MIGMetrics) (uuid : String) : Option MIGMetrics × List DriverCall :=
  match st.latestMetrics.lookup uuid with
  | some m => (some m, [])
  | none =>
    match st.migDevices.lookup uuid with
    | some d =>
      let c := collectDeviceMetrics drv st.devices now init d
      (some c.1, c.2)
    | none => (none, [])

/-- Embeds `MIGManager::getAllMIGMetrics` (lines 539-556): when the cache is empty,
collect fresh for every registered partition; otherwise copy the cache. -/
def getAllMIGMetrics (drv : Driver) (st : MgrState) (now : Nat)
    (init : MIGMetrics) : List (String × MIGMetrics) × List DriverCall :=
  if st.latestMetrics.isEmpty then
    let rs := st.migDevices.map
      (fun p => ((p.1, (collectDeviceMetrics drv st.devices now init p.2).1),
                 (collectDeviceMetrics drv st.devices now init p.2).2))
    (rs.map (fun r => r.1), (rs.map (fun r => r.2)).flatten)
  else (st.latestMetrics, [])

/-- Embeds `MIGManager::getDeviceCount` (lines 559-561). -/
def getDeviceCount (st : MgrState) : Nat × List DriverCall :=
  (st.devices.length, [])

/-- Embeds `MIGManager::getDeviceName` (lines 572-585): out-of-range index returns
the empty string without a driver call; otherwise `nvmlDeviceGetName`, with
"Unknown" on failure. -/
def getDeviceName (drv : Driver) (st : MgrState) (index : Nat) :
    String × List DriverCall :=
  if st.devices.length ≤ index then ("", [])
  else
    let h := st.devices.getD index 0
    match drv.deviceGetName h with
    | some n => (n, [.getName h])
    | none => ("Unknown", [.getName h])

/-- Embeds `MIGManager::getAvailableProfiles` (lines 285-317): out-of-range index
returns an empty list without a driver call; otherwise probes profile ids
0..7, and for each profile found also queries the device name for the
profile's display name. -/
def getAvailableProfiles (drv : Driver) (st : MgrState) (deviceIndex : Nat) :
    List MIGProfile × List DriverCall :=
  if st.devices.length ≤ deviceIndex then ([], [])
  else
    let h := st.devices.getD deviceIndex 0
    let rs := (List.range 8).map (fun profileId =>
      match drv.deviceGetGpuInstanceProfileInfo h profileId with
      | some info =>
        let name := match drv.deviceGetName h with
          | some n => n ++ "_Profile_" ++ toString profileId
          | none => "GPU" ++ toString deviceIndex ++ "_Profile_" ++ toString profileId
        ([({ profileId := profileId, memorySizeMB := info.memorySizeMB,
             multiprocessorCount := info.multiprocessorCount,
             maxComputeInstances := info.maxComputeInstances, name := name } : MIGProfile)],
         [DriverCall.getProfileInfo h profileId, DriverCall.getName h])
      | none => ([], [DriverCall.getProfileInfo h profileId]))
    ((rs.map (fun r => r.1)).flatten, (rs.map (fun r => r.2)).flatten)

/-- One pass of `MIGManager::monitoringLoop` (lines 360-386): refresh the
registry, collect metrics for every registered partition (under the lock),
then swap `latestMetrics` wholesale. -/
def monitoringPass (drv : Driver) (now : Nat) (init : MIGMetrics) (st : MgrState) :
    MgrState × List DriverCall :=
  let r := refreshMIGDevices drv st
  let ms := r.1.migDevices.map
    (fun p => ((p.1, (collectDeviceMetrics drv r.1.devices now init p.2).1),
               (collectDeviceMetrics drv r.1.devices now init p.2).2))
  ({ r.1 with latestMetrics := ms.map (fun m => m.1) },
   r.2 ++ (ms.map (fun m => m.2)).flatten)

/-- Configuration of the monitoring loop as started by
`MIGManager::startMonitoring` (lines 445-451): the loop's inter-pass wait. -/
structure MonitoringConfig where
  sleepMs : Nat
  deriving Repr, DecidableEq

/-- Embeds `MIGManager::startMonitoring(unsigned int intervalMs)` (lines 445-451)
together with the wait in `monitoringLoop` (line 383): the `intervalMs`
parameter is never read, and the loop waits a literal
`std::chrono::milliseconds(1000)` between passes. -/
def startMonitoring (intervalMs : Nat) : MonitoringConfig :=
  { sleepMs := 1000 }

/-- Concrete driver fixture for witnesses: two devices (handles 10 and 11),
device 1 in MIG mode exposing one partition with uuid "P1". -/
def exDrv : Driver where
  deviceGetCount := some 2
  deviceGetHandleByIndex := fun i => if i = 0 then some 10 else if i = 1 then some 11 else none
  deviceGetMigMode := fun h => if h = 11 then some (1, 1) else some (0, 0)
  deviceSetMigMode := fun _ _ => 0
  deviceGetGpuInstances := fun h => if h = 11 then some [100] else some []
  gpuInstanceGetInfo := fun g => if g = 100 then some ⟨1, 9⟩ else none
  gpuInstanceGetComputeInstances := fun g => if g = 100 then some [200] else none
  computeInstanceGetInfo := fun c => if c = 200 then some 5 else none
  computeInstanceGetDeviceHandle := fun _ => 300
  deviceGetUUID := fun h => if h = 300 then some "P1" else none
  deviceGetMemoryInfo := fun h => if h = 300 then some ⟨1, 2, 5120⟩ else none
  deviceGetGpuInstanceProfileInfo := fun h p => if h = 11 ∧ p = 9 then some ⟨5120, 14, 2⟩ else none
  deviceGetName := fun _ => some "A100"
  deviceGetUtilizationRates := fun _ => some (50, 40)
  deviceGetPowerUsage := fun _ => some 150
  deviceGetTemperature := fun _ => some 60
  deviceGetComputeRunningProcesses := fun _ => some []
  systemGetProcessName := fun _ => ""

/-- The partition descriptor `exDrv` yields for uuid "P1". -/
def exP1 : MIGDeviceInfo :=
  { deviceHandle := 300, parentDeviceIndex := 1, instanceId := 1, profileId := 9,
    uuid := "P1", memorySize := 5120, multiprocessorCount := 14,
    maxComputeInstances := 2, currentComputeInstances := 1, computeInstanceIds := [5] }

/-- Manager state fixture after inventory initialization against `exDrv`. -/
def exSt : MgrState := { devices := [10, 11], migDevices := [], latestMetrics := [] }

/-- Single-device state fixture (handle 10, MIG disabled in `exDrv`). -/
def exStOne : MgrState := { devices := [10], migDevices := [], latestMetrics := [] }

/-- Elements of `mapUpsert m k v` come from `m` or are the inserted pair. -/
theorem mem_mapUpsert {β : Type} {m : List (String × β)} {k : String} {v : β}
    {p : String × β} (h : p ∈ mapUpsert m k v) : p ∈ m ∨ p = (k, v) := by
  unfold mapUpsert at h
  split at h
  · rcases List.mem_map.1 h with ⟨q, hq, hqe⟩
    by_cases hk : (q.1 == k) = true
    · right; rw [if_pos hk] at hqe; exact hqe.symm
    · left; rw [if_neg hk] at hqe; exact hqe ▸ hq
  · rcases List.mem_append.1 h with h1 | h1
    · exact .inl h1
    · right; simpa using h1

/-- Elements of an upsert-fold come from the accumulator or the input list. -/
theorem mem_foldl_mapUpsert {β : Type} {l : List (String × β)} {p : String × β} :
    ∀ {acc : List (String × β)},
      p ∈ l.foldl (fun m kv => mapUpsert m kv.1 kv.2) acc → p ∈ acc ∨ p ∈ l := by
  induction l with
  | nil => intro acc h; exact .inl (by simpa using h)
  | cons kv l ih =>
    intro acc h
    rw [List.foldl_cons] at h
    rcases ih h with hacc | hl
    · rcases mem_mapUpsert hacc with h1 | h1
      · exact .inl h1
      · exact .inr (by simp [h1])
    · exact .inr (List.mem_cons_of_mem _ hl)

/-- Lemma: `ciStep` never modifies the descriptor's `parentDeviceIndex`. -/
theorem ciStep_parent (drv : Driver) (ph pid : Nat) (acc : MIGDeviceInfo × List DriverCall)
    (jci : Nat × Nat) :
    ((ciStep drv ph pid acc jci).1).parentDeviceIndex = acc.1.parentDeviceIndex := by
  unfold ciStep
  cases drv.computeInstanceGetInfo jci.2 with
  | none => rfl
  | some ciId =>
    dsimp only
    split
    · cases drv.deviceGetUUID (drv.computeInstanceGetDeviceHandle jci.2) <;>
        cases drv.deviceGetMemoryInfo (drv.computeInstanceGetDeviceHandle jci.2) <;>
        cases drv.deviceGetGpuInstanceProfileInfo ph pid <;> rfl
    · rfl

/-- Folding `ciStep` preserves `parentDeviceIndex`. -/
theorem foldl_ciStep_parent (drv : Driver) (ph pid : Nat) (l : List (Nat × Nat)) :
    ∀ acc : MIGDeviceInfo × List DriverCall,
      ((l.foldl (ciStep drv ph pid) acc).1).parentDeviceIndex = acc.1.parentDeviceIndex := by
  induction l with
  | nil => intro acc; rfl
  | cons x l ih => intro acc; rw [List.foldl_cons, ih, ciStep_parent]

/-- A registry entry produced by `processGI` carries the device index it was
built for as its `parentDeviceIndex`. -/
theorem processGI_parent {drv : Driver} {ph d gi : Nat} {u : String} {mi : MIGDeviceInfo}
    (h : (processGI drv ph d gi).1 = some (u, mi)) : mi.parentDeviceIndex = d := by
  unfold processGI at h
  cases h1 : drv.gpuInstanceGetInfo gi with
  | none => rw [h1] at h; exact absurd h (by simp)
  | some info =>
    rw [h1] at h
    cases h2 : drv.gpuInstanceGetComputeInstances gi with
    | none => rw [h2] at h; exact absurd h (by simp)
    | some cis =>
      rw [h2] at h
      dsimp only at h
      split at h
      · exact absurd h (by simp)
      · have hmi := Option.some.inj h
        have : mi = (cis.enum.foldl (ciStep drv ph info.profileId)
            ({ deviceHandle := 0, parentDeviceIndex := d, instanceId := info.id,
               profileId := info.profileId, uuid := "", memorySize := 0,
               multiprocessorCount := 0, maxComputeInstances := 0,
               currentComputeInstances := cis.length, computeInstanceIds := [] }, [])).1 :=
          congrArg Prod.snd hmi.symm
        rw [this, foldl_ciStep_parent]

/-- Every entry contributed by device `i` has `parentDeviceIndex = i`. -/
theorem deviceContribution_parent {drv : Driver} {devices : List Nat} {i : Nat}
    {p : String × MIGDeviceInfo} (h : p ∈ (deviceContribution drv devices i).1) :
    p.2.parentDeviceIndex = i := by
  unfold deviceContribution at h
  dsimp only at h
  split at h
  · exact absurd h (by simp)
  · split at h
    · exact absurd h (by simp)
    · dsimp only at h
      rcases List.mem_filterMap.1 h with ⟨r, hr, hsome⟩
      rcases List.mem_map.1 hr with ⟨gi, _, rfl⟩
      obtain ⟨u, mi⟩ := p
      exact processGI_parent hsome

/-- Every entry of the built map comes from some device's contribution. -/
theorem mem_buildNewDevices {drv : Driver} {devices : List Nat} {p : String × MIGDeviceInfo}
    (h : p ∈ (buildNewDevices drv devices).1) :
    ∃ i, i ∈ List.range devices.length ∧ p ∈ (deviceContribution drv devices i).1 := by
  simp only [buildNewDevices] at h
  rcases mem_foldl_mapUpsert h with h0 | hl
  · exact absurd h0 (by simp)
  · rcases List.mem_flatten.1 hl with ⟨s, hs, hp⟩
    rcases List.mem_map.1 hs with ⟨r, hr, rfl⟩
    rcases List.mem_map.1 hr with ⟨i, hi, rfl⟩
    exact ⟨i, hi, hp⟩

/-- A device whose GPU-instance enumeration fails contributes nothing. -/
theorem deviceContribution_enum_fail {drv : Driver} {devices : List Nat} {d : Nat}
    (h : drv.deviceGetGpuInstances (devices.getD d 0) = none) :
    (deviceContribution drv devices d).1 = [] := by
  unfold deviceContribution
  dsimp only
  split
  · rfl
  · rw [List.getD_eq_getElem?_getD] at h
    simp [h]

/-- C1: each refresh pass builds a brand-new uuid-to-descriptor mapping from
this pass's driver responses alone (independent of the previously published
registry and cache) and publishes it in a single atomic swap, so every
registry state observable during the pass is either the fully-previous or the
fully-new mapping — never a mix of two passes. -/
theorem refresh_publishes_old_or_new (drv : Driver) (st : MgrState) :
    (∀ m ∈ refreshObservableMaps drv st,
        m = st.migDevices ∨ m = (refreshMIGDevices drv st).1.migDevices) ∧
    (∀ ds reg1 lm1 reg2 lm2,
        (refreshMIGDevices drv { devices := ds, migDevices := reg1, latestMetrics := lm1 }).1.migDevices =
        (refreshMIGDevices drv { devices := ds, migDevices := reg2, latestMetrics := lm2 }).1.migDevices) := by
  constructor
  · intro m hm
    unfold refreshObservableMaps at hm
    rcases List.mem_append.1 hm with h | h
    · exact .inl (List.mem_replicate.1 h).2
    · exact .inr (by simpa using h)
  · intro ds reg1 lm1 reg2 lm2; rfl

theorem refresh_publishes_old_or_new_witness :
    exSt.migDevices ∈ refreshObservableMaps exDrv exSt ∧
    (exSt.migDevices = exSt.migDevices ∨
     exSt.migDevices = (refreshMIGDevices exDrv exSt).1.migDevices) :=
  ⟨by simp [refreshObservableMaps, List.mem_replicate],
   (refresh_publishes_old_or_new exDrv exSt).1 _
     (by simp [refreshObservableMaps, List.mem_replicate])⟩

/-- C6: if the driver fails to enumerate the partitions of device `d`, that
device contributes zero entries to the pass's new mapping (no published entry
has parent `d`), while the built mapping is exactly the fold over the other
devices' contributions — one device's error never aborts the refresh. -/
theorem refresh_single_device_failure_isolated (drv : Driver) (devices : List Nat) (d : Nat)
    (_hd : d < devices.length)
    (hfail : drv.deviceGetGpuInstances (devices.getD d 0) = none) :
    (deviceContribution drv devices d).1 = [] ∧
    (∀ p ∈ (buildNewDevices drv devices).1, p.2.parentDeviceIndex ≠ d) ∧
    (buildNewDevices drv devices).1 =
      (((List.range devices.length).map
          (fun i => if i = d then [] else (deviceContribution drv devices i).1)).flatten).foldl
        (fun m kv => mapUpsert m kv.1 kv.2) [] := by
  refine ⟨deviceContribution_enum_fail hfail, ?_, ?_⟩
  · intro p hp hpd
    rcases mem_buildNewDevices hp with ⟨i, _, hpi⟩
    have hparent := deviceContribution_parent hpi
    rw [hpd] at hparent
    rw [← hparent] at hpi
    rw [deviceContribution_enum_fail hfail] at hpi
    exact absurd hpi (by simp)
  · simp only [buildNewDevices, List.map_map]
    have hmaps : (List.range devices.length).map
          ((fun r => r.1) ∘ deviceContribution drv devices) =
        (List.range devices.length).map
          (fun i => if i = d then [] else (deviceContribution drv devices i).1) := by
      refine List.map_congr_left (fun i _ => ?_)
      by_cases hi : i = d
      · subst hi
        simp [deviceContribution_enum_fail hfail]
      · simp [hi]
    rw [hmaps]

/-- Fixture `exDrv` but GPU-instance enumeration fails for device handle 11. -/
def exDrvEnumFail : Driver :=
  { exDrv with deviceGetGpuInstances := fun h => if h = 11 then none else some [] }

theorem refresh_single_device_failure_isolated_witness :
    (1 < ([10, 11] : List Nat).length ∧
     exDrvEnumFail.deviceGetGpuInstances (([10, 11] : List Nat).getD 1 0) = none) ∧
    ((deviceContribution exDrvEnumFail [10, 11] 1).1 = [] ∧
     (∀ p ∈ (buildNewDevices exDrvEnumFail [10, 11]).1, p.2.parentDeviceIndex ≠ 1) ∧
     (buildNewDevices exDrvEnumFail [10, 11]).1 =
       (((List.range ([10, 11] : List Nat).length).map
           (fun i => if i = 1 then [] else (deviceContribution exDrvEnumFail [10, 11] i).1)).flatten).foldl
         (fun m kv => mapUpsert m kv.1 kv.2) []) :=
  ⟨⟨by decide, rfl⟩,
   refresh_single_device_failure_isolated exDrvEnumFail [10, 11] 1 (by decide) rfl⟩

/-- The callback tags emitted for one executed task: exactly its own optional
callback. -/
theorem execTask_event_ids (drv : Driver) (st : MgrState) (t : AsyncTask) :
    ((execTask drv st t).2).map (fun e => e.1) = t.callback.toList := by
  unfold execTask
  cases t.run drv st <;> cases t.callback <;> rfl

/-- The worker executes exactly the first `k` queued tasks (those dequeued
before the stop flag is observed), emits their callbacks once each in queue
order, and leaves the rest unexecuted. -/
theorem workerRun_fifo (drv : Driver) :
    ∀ (q : List AsyncTask) (st : MgrState) (k : Nat),
      ((workerRun drv st q k).2.1).map (fun e => e.1) = (q.take k).filterMap AsyncTask.callback ∧
      (workerRun drv st q k).2.2 = q.drop k := by
  intro q
  induction q with
  | nil => intro st k; cases k <;> simp [workerRun]
  | cons t ts ih =>
    intro st k
    cases k with
    | zero => simp [workerRun]
    | succ k =>
      refine ⟨?_, ?_⟩
      · show ((execTask drv st t).2 ++
            (workerRun drv (execTask drv st t).1 ts k).2.1).map (fun e => e.1) = _
        rw [List.map_append, execTask_event_ids, (ih _ k).1, List.take_succ_cons,
          List.filterMap_cons]
        cases t.callback <;> simp
      · show (workerRun drv (execTask drv st t).1 ts k).2.2 = _
        rw [(ih _ k).2, List.drop_succ_cons]

/-- C2: the worker drains the queue in strict FIFO submission order, invoking
each submitted command's completion callback exactly once; for the
enable-MIG-mode command the callback reports success exactly when the driver's
`nvmlDeviceSetMigMode` returned success, and a thrown driver error is caught
and delivered as `(false, what())`. -/
theorem worker_fifo_exactly_once :
    (∀ (drv : Driver) (st : MgrState) (q : List AsyncTask) (k : Nat), q.length ≤ k →
       ((workerRun drv st q k).2.1).map (fun e => e.1) = q.filterMap AsyncTask.callback) ∧
    (∀ (drv : Driver) (st : MgrState) (i cbId : Nat),
       (drv.deviceSetMigMode (st.devices.getD i 0) NVML_ENABLE_MIG = NVML_SUCCESS →
         execTask drv st ⟨mkEnableTaskRun i, some cbId⟩ =
           ((refreshMIGDevices drv st).1, [(cbId, true, "작업 성공")])) ∧
       (drv.deviceSetMigMode (st.devices.getD i 0) NVML_ENABLE_MIG ≠ NVML_SUCCESS →
         execTask drv st ⟨mkEnableTaskRun i, some cbId⟩ =
           (st, [(cbId, false, "MIG 모드 활성화 실패" ++ ": " ++
             nvmlErrorString (drv.deviceSetMigMode (st.devices.getD i 0) NVML_ENABLE_MIG))]))) := by
  constructor
  · intro drv st q k hk
    rw [(workerRun_fifo drv q st k).1, List.take_of_length_le hk]
  · intro drv st i cbId
    constructor
    · intro hs
      rw [List.getD_eq_getElem?_getD] at hs
      simp [execTask, mkEnableTaskRun, hs]
    · intro hf
      rw [List.getD_eq_getElem?_getD] at hf
      simp [execTask, mkEnableTaskRun, hf]

theorem worker_fifo_exactly_once_witness :
    (([⟨mkEnableTaskRun 0, some 7⟩] : List AsyncTask).length ≤ 1 ∧
     ((workerRun exDrv exSt [⟨mkEnableTaskRun 0, some 7⟩] 1).2.1).map (fun e => e.1) =
       ([⟨mkEnableTaskRun 0, some 7⟩] : List AsyncTask).filterMap AsyncTask.callback) ∧
    (exDrv.deviceSetMigMode (exSt.devices.getD 0 0) NVML_ENABLE_MIG = NVML_SUCCESS ∧
     execTask exDrv exSt ⟨mkEnableTaskRun 0, some 7⟩ =
       ((refreshMIGDevices exDrv exSt).1, [(7, true, "작업 성공")])) :=
  ⟨⟨Nat.le_refl 1, worker_fifo_exactly_once.1 exDrv exSt _ 1 (Nat.le_refl 1)⟩,
   ⟨rfl, (worker_fifo_exactly_once.2 exDrv exSt 0 7).1 rfl⟩⟩

/-- A queued task fixture with a completion callback (tag 0). -/
def exTask : AsyncTask := ⟨mkEnableTaskRun 0, some 0⟩

/-- C3 counterexample: with one command queued and none executing, observing
the stop flag makes the worker exit immediately — the queued command's
callback is never invoked, and in particular no
`(false, "cancelled: shutting down")` callback exists anywhere in this code. -/
theorem shutdown_cancel_callback_counterexample :
    (workerRun exDrv exSt [exTask] 0).2.1 = [] ∧
    (workerRun exDrv exSt [exTask] 0).2.1 ≠ [(0, false, "cancelled: shutting down")] := by
  constructor
  · rfl
  · intro h
    simp [workerRun] at h

/-- C3 (amended): at shutdown the worker executes no further queued command:
every command still queued when the stop flag is observed is discarded
*silently* — its callback is never invoked with any arguments — and the
worker loop returns (the thread then exits and is joined by the destructor).
In general the callbacks ever emitted are exactly those of the commands
dequeued before the stop. -/
theorem shutdown_drops_queued_commands (drv : Driver) (st : MgrState) (q : List AsyncTask) :
    (workerRun drv st q 0).2.1 = [] ∧
    (workerRun drv st q 0).2.2 = q ∧
    (∀ k, ((workerRun drv st q k).2.1).map (fun e => e.1) =
       (q.take k).filterMap AsyncTask.callback) := by
  refine ⟨?_, ?_, fun k => (workerRun_fifo drv q st k).1⟩ <;> cases q <;> rfl

/-- A cached snapshot fixture. -/
def exMetrics : MIGMetrics :=
  { timestamp := 5, gpuUtilization := 11, memoryUtilization := 12, memoryUsed := 13,
    memoryFree := 14, memoryTotal := 15, powerUsage := 16, temperature := 17,
    processUtilization := [] }

/-- State fixture whose registry and metrics cache both know uuid "P1". -/
def exStCached : MgrState :=
  { devices := [10, 11], migDevices := [("P1", exP1)], latestMetrics := [("P1", exMetrics)] }

/-- The indeterminate initial contents of the default-initialized
`MIGMetrics metrics;` local: the stack happens to hold 7 in `gpuUtilization`. -/
def junkInit : MIGMetrics :=
  { timestamp := 0, gpuUtilization := 7, memoryUtilization := 0, memoryUsed := 0,
    memoryFree := 0, memoryTotal := 0, powerUsage := 0, temperature := 0,
    processUtilization := [] }

/-- Fixture `exDrv` with a failing utilization sub-query. -/
def exDrvUtilFail : Driver := { exDrv with deviceGetUtilizationRates := fun _ => none }

/-- Fixture `exDrv` whose count query reports zero devices. -/
def exDrvCount0 : Driver := { exDrv with deviceGetCount := some 0 }

/-- Fixture `exDrv` whose per-index handle acquisition always fails. -/
def exDrvHandlesFail : Driver := { exDrv with deviceGetHandleByIndex := fun _ => none }

/-- Fixture `exDrv` whose device-count query fails. -/
def exDrvCountFail : Driver := { exDrv with deviceGetCount := none }

/-- C4 counterexample: `getAllMIGDevices` (list all partitions) performs
driver calls — it runs a full registry refresh first — and `getDeviceName`
queries the driver; the claim that every read performs no Driver Interface
calls is false. -/
theorem reads_touch_driver_counterexample :
    (getAllMIGDevices exDrv exStOne).2.2 ≠ [] ∧
    (getDeviceName exDrv exStOne 0).2 ≠ [] := by
  constructor <;> decide

/-- C4 (amended): only the cached reads are driver-free: `findMIGDeviceByUUID`
and `getDeviceCount` never touch the driver, `getMIGDeviceMetrics` is
driver-free when the uuid is in the metrics cache, and `getAllMIGMetrics` is
driver-free when the cache is non-empty; by contrast, listing partitions
(`getAllMIGDevices`/`getMIGDevices`) triggers a driver-backed refresh and
`getDeviceName` queries the driver (see the counterexample). -/
theorem cached_reads_no_driver_calls (drv : Driver) (st : MgrState) (uuid : String)
    (now : Nat) (init : MIGMetrics) :
    (findMIGDeviceByUUID st uuid).2 = [] ∧
    (getDeviceCount st).2 = [] ∧
    (∀ m, st.latestMetrics.lookup uuid = some m →
       getMIGDeviceMetrics drv st now init uuid = (some m, [])) ∧
    (st.latestMetrics ≠ [] → getAllMIGMetrics drv st now init = (st.latestMetrics, [])) := by
  refine ⟨rfl, rfl, ?_, ?_⟩
  · intro m hm
    unfold getMIGDeviceMetrics
    rw [hm]
  · intro hne
    have hempty : ¬ st.latestMetrics.isEmpty = true := by
      simpa [List.isEmpty_iff] using hne
    unfold getAllMIGMetrics
    rw [if_neg hempty]

theorem cached_reads_no_driver_calls_witness :
    ((findMIGDeviceByUUID exStCached "P1").2 = [] ∧ (getDeviceCount exStCached).2 = []) ∧
    (exStCached.latestMetrics.lookup "P1" = some exMetrics ∧
     getMIGDeviceMetrics exDrv exStCached 0 junkInit "P1" = (some exMetrics, [])) ∧
    (exStCached.latestMetrics ≠ [] ∧
     getAllMIGMetrics exDrv exStCached 0 junkInit = (exStCached.latestMetrics, [])) :=
  ⟨⟨(cached_reads_no_driver_calls exDrv exStCached "P1" 0 junkInit).1,
    (cached_reads_no_driver_calls exDrv exStCached "P1" 0 junkInit).2.1⟩,
   ⟨rfl, (cached_reads_no_driver_calls exDrv exStCached "P1" 0 junkInit).2.2.1 exMetrics rfl⟩,
   ⟨by simp [exStCached],
    (cached_reads_no_driver_calls exDrv exStCached "P1" 0 junkInit).2.2.2
      (by simp [exStCached])⟩⟩

/-- C5 (code bug): when the utilization sub-query fails, the snapshot's
`gpuUtilization` keeps whatever indeterminate value the default-initialized
local already held (here 7) instead of the documented sentinel zero, while the
collection still completes and the other, successful sub-queries populate
their fields. -/
theorem collect_failed_subquery_field_not_zero :
    (collectDeviceMetrics exDrvUtilFail [10, 11] 42 junkInit exP1).1.gpuUtilization = 7 ∧
    ¬ (collectDeviceMetrics exDrvUtilFail [10, 11] 42 junkInit exP1).1.gpuUtilization = 0 ∧
    (collectDeviceMetrics exDrvUtilFail [10, 11] 42 junkInit exP1).1.memoryTotal = 5120 ∧
    (collectDeviceMetrics exDrvUtilFail [10, 11] 42 junkInit exP1).1.timestamp = 42 :=
  ⟨rfl, by decide, rfl, rfl⟩

/-- C7: `getMIGDeviceMetrics(uuid)` returns the cached snapshot when present
(no driver call); otherwise, when the uuid is registered, it performs an
on-demand collection (which does issue driver calls) and returns it; and when
the uuid is in neither the cache nor the registry it returns `none` with no
driver call. -/
theorem metrics_lookup_fallback (drv : Driver) (st : MgrState) (now : Nat)
    (init : MIGMetrics) (uuid : String) :
    (∀ m, st.latestMetrics.lookup uuid = some m →
       getMIGDeviceMetrics drv st now init uuid = (some m, [])) ∧
    (st.latestMetrics.lookup uuid = none →
       ∀ d, st.migDevices.lookup uuid = some d →
         getMIGDeviceMetrics drv st now init uuid =
           (some (collectDeviceMetrics drv st.devices now init d).1,
            (collectDeviceMetrics drv st.devices now init d).2) ∧
         (collectDeviceMetrics drv st.devices now init d).2 ≠ []) ∧
    (st.latestMetrics.lookup uuid = none → st.migDevices.lookup uuid = none →
       getMIGDeviceMetrics drv st now init uuid = (none, [])) := by
  refine ⟨?_, ?_, ?_⟩
  · intro m hm
    unfold getMIGDeviceMetrics
    rw [hm]
  · intro h1 d h2
    constructor
    · unfold getMIGDeviceMetrics
      rw [h1, h2]
    · cases hp : drv.deviceGetComputeRunningProcesses d.deviceHandle <;>
        simp [collectDeviceMetrics, hp]
  · intro h1 h2
    unfold getMIGDeviceMetrics
    rw [h1, h2]

theorem metrics_lookup_fallback_witness :
    exStOne.latestMetrics.lookup "X" = none ∧ exStOne.migDevices.lookup "X" = none ∧
    getMIGDeviceMetrics exDrv exStOne 0 junkInit "X" = (none, []) :=
  ⟨rfl, rfl, (metrics_lookup_fallback exDrv exStOne 0 junkInit "X").2.2 rfl rfl⟩

/-- C8 counterexample: a successful count query reporting zero devices, and a
successful count with every handle acquisition failing, both initialize
without error (an empty inventory), contradicting the claim that obtaining
zero handles is fatal. -/
theorem initialize_zero_handles_not_fatal :
    initializeDevices exDrvCount0 = Except.ok ([], []) ∧
    initializeDevices exDrvHandlesFail = Except.ok ([], [0, 1]) := by
  constructor <;> rfl

/-- C8 (amended): inventory initialization fails fatally exactly when the
device-count query fails; otherwise it succeeds — even with zero handles
obtained — keeping the handles of the succeeding indices in order and warning
about (and omitting) every failed index. -/
theorem initialize_fatal_iff_count_fails (drv : Driver) :
    (drv.deviceGetCount = none →
       initializeDevices drv = Except.error "디바이스 개수 조회 실패") ∧
    (∀ n, drv.deviceGetCount = some n →
       initializeDevices drv =
         Except.ok ((List.range n).filterMap drv.deviceGetHandleByIndex,
                    (List.range n).filter (fun i => (drv.deviceGetHandleByIndex i).isNone))) ∧
    ((∃ e, initializeDevices drv = Except.error e) ↔ drv.deviceGetCount = none) := by
  refine ⟨?_, ?_, ?_, ?_⟩
  · intro h
    unfold initializeDevices
    rw [h]
  · intro n h
    unfold initializeDevices
    rw [h]
  · rintro ⟨e, he⟩
    cases h : drv.deviceGetCount with
    | none => rfl
    | some n =>
      unfold initializeDevices at he
      rw [h] at he
      exact absurd he (by simp)
  · intro h
    exact ⟨_, by unfold initializeDevices; rw [h]⟩

theorem initialize_fatal_iff_count_fails_witness :
    exDrvCountFail.deviceGetCount = none ∧
    initializeDevices exDrvCountFail = Except.error "디바이스 개수 조회 실패" :=
  ⟨rfl, (initialize_fatal_iff_count_fails exDrvCountFail).1 rfl⟩

/-- C9 (code bug): each monitoring pass performs a registry refresh followed
by a wholesale metrics-cache rebuild covering exactly the currently registered
partitions, but the inter-pass wait is the literal 1000 ms: `startMonitoring`
never reads its `intervalMs` argument, so the loop does not sleep for the
configured interval (e.g. 500 ms) as claimed. -/
theorem monitoring_interval_ignored :
    (∀ intervalMs, startMonitoring intervalMs = { sleepMs := 1000 }) ∧
    ¬ startMonitoring 500 = ({ sleepMs := 500 } : MonitoringConfig) ∧
    (∀ (drv : Driver) (now : Nat) (init : MIGMetrics) (st : MgrState),
       (monitoringPass drv now init st).1.migDevices =
         (refreshMIGDevices drv st).1.migDevices ∧
       ((monitoringPass drv now init st).1.latestMetrics).map (fun p => p.1) =
         ((refreshMIGDevices drv st).1.migDevices).map (fun p => p.1)) := by
  refine ⟨fun _ => rfl, by decide, fun drv now init st => ⟨rfl, ?_⟩⟩
  simp [monitoringPass, List.map_map]

/-- C10: every per-device operation called with an out-of-range device index
returns its benign default with no driver call, no state change, and no
enqueued command: `isMIGModeEnabled` false, `getAvailableProfiles` and
`getMIGDevices` empty, `getDeviceName` the empty string, and
`enableMIGMode`/`disableMIGMode` false with the callback, if any, invoked once
with success=false. -/
theorem invalid_index_benign_defaults (drv : Driver) (st : MgrState) (i : Nat)
    (async : Bool) (cb : Option Nat) (h : st.devices.length ≤ i) :
    isMIGModeEnabled drv st.devices i = (false, []) ∧
    getAvailableProfiles drv st i = ([], []) ∧
    getMIGDevices drv st i = ([], st, []) ∧
    getDeviceName drv st i = ("", []) ∧
    enableMIGMode drv st i async cb =
      { ret := false, st := st, events := optEvent cb false "유효하지 않은 디바이스 인덱스",
        enqueued := [], calls := [] } ∧
    disableMIGMode drv st i async cb =
      { ret := false, st := st, events := optEvent cb false "유효하지 않은 디바이스 인덱스",
        enqueued := [], calls := [] } := by
  unfold isMIGModeEnabled getAvailableProfiles getMIGDevices getDeviceName
    enableMIGMode disableMIGMode
  refine ⟨?_, ?_, ?_, ?_, ?_, ?_⟩ <;> rw [if_pos h]

theorem invalid_index_benign_defaults_witness :
    exStOne.devices.length ≤ 5 ∧
    (isMIGModeEnabled exDrv exStOne.devices 5 = (false, []) ∧
     getAvailableProfiles exDrv exStOne 5 = ([], []) ∧
     getMIGDevices exDrv exStOne 5 = ([], exStOne, []) ∧
     getDeviceName exDrv exStOne 5 = ("", []) ∧
     enableMIGMode exDrv exStOne 5 true (some 3) =
       { ret := false, st := exStOne,
         events := optEvent (some 3) false "유효하지 않은 디바이스 인덱스",
         enqueued := [], calls := [] } ∧
     disableMIGMode exDrv exStOne 5 true (some 3) =
       { ret := false, st := exStOne,
         events := optEvent (some 3) false "유효하지 않은 디바이스 인덱스",
         enqueued := [], calls := [] }) :=
  ⟨by decide, invalid_index_benign_defaults exDrv exStOne 5 true (some 3) (by decide)⟩
